import Mathlib

/-!
Verification of the telemetry pattern analyzer (`analyze-otel-patterns.py`).

The analyzer has three stages: a loader (`load_recent_telemetry`), a pattern
detector (`detect_patterns`) and a coach (`generate_coaching`), plus a status
writer (`update_statusline`).  We shallow-embed the Python code over a JSON
value model.  Python dictionary/attribute errors are modelled with
`Except String`; a `.error` result models an uncaught Python exception.

Numeric modelling notes:
  * JSON numbers are modelled as integers (the analyzer only ever compares a
    status code against the integer 2 and counts events).
  * The Python expression `tool_errors / max(tool_errors + tool_successes, 1)`
    is a real division; the comparisons `error_rate > 0.4` and
    `error_rate < 0.1` are modelled exactly by the integer cross
    multiplications `5 * errors > 2 * max (errors + successes) 1` and
    `10 * errors < max (errors + successes) 1`.
-/

/-- JSON-like values, the shape of parsed telemetry records. -/
inductive Json where
  | null : Json
  | bool (b : Bool) : Json
  | num (n : Int) : Json
  | str (s : String) : Json
  | arr (xs : List Json) : Json
  | obj (fields : List (String × Json)) : Json

/-- Key lookup in an object's field list (first occurrence wins, as in a
Python dict whose keys are unique). -/
def lookupField : List (String × Json) → String → Option Json
  | [], _ => none
  | (k, v) :: rest, key => if k == key then some v else lookupField rest key

/-- Python `d.get(key, default)`: only objects (dicts) have `.get`; calling it
on anything else raises `AttributeError`. -/
def Json.getD (j : Json) (k : String) (d : Json) : Except String Json :=
  match j with
  | .obj fs => .ok ((lookupField fs k).getD d)
  | _ => .error "AttributeError"

/-- Python subscript `d[key]` with a string key: `KeyError` when the key is
missing, `TypeError` when the value is not a dict. -/
def Json.item (j : Json) (k : String) : Except String Json :=
  match j with
  | .obj fs =>
    match lookupField fs k with
    | some v => .ok v
    | none => .error "KeyError"
  | _ => .error "TypeError"

/-- Python iteration `for x in v`: lists yield their elements, strings their
characters, dicts their keys; other values are not iterable. -/
def pyIter : Json → Except String (List Json)
  | .arr xs => .ok xs
  | .str s => .ok (s.toList.map (fun c => .str (String.singleton c)))
  | .obj fs => .ok (fs.map (fun p => .str p.1))
  | _ => .error "TypeError"

/-- Python `==` restricted to the comparisons the analyzer performs (a value
against a string or integer literal); mixed-type comparisons are `False`,
`True`/`False` compare as `1`/`0`. -/
def pyEq : Json → Json → Bool
  | .null, .null => true
  | .bool a, .bool b => a == b
  | .bool a, .num b => (if a then (1 : Int) else 0) == b
  | .num a, .bool b => a == (if b then (1 : Int) else 0)
  | .num a, .num b => a == b
  | .str a, .str b => a == b
  | _, _ => false

/-- Does `l` start with `pat`? -/
def listStartsWith : List Char → List Char → Bool
  | [], _ => true
  | _ :: _, [] => false
  | p :: ps, c :: cs => p == c && listStartsWith ps cs

/-- Substring containment on character lists (Python `pat in s`). -/
def listHasSub (pat : List Char) : List Char → Bool
  | [] => pat.isEmpty
  | c :: rest => listStartsWith pat (c :: rest) || listHasSub pat rest

/-- Python `'tool' in name.lower()` for a string `name` (lowering done
characterwise, as `str.lower` does for the ASCII range). -/
def nameHasTool (s : String) : Bool :=
  listHasSub "tool".toList (s.toList.map Char.toLower)

/-- Python `set.add`: insert a name if not already present (we only ever need
the cardinality of the set, so a duplicate-free list is a faithful model). -/
def insertName (l : List String) (s : String) : List String :=
  if l.contains s then l else l ++ [s]

/-- The running aggregates of `detect_patterns`: `tool_errors`,
`tool_successes` and the `unique_tools` set. -/
structure Counts where
  toolErrors : Nat
  toolSuccesses : Nat
  uniqueTools : List String
deriving DecidableEq

/-- Body of the innermost loop of `detect_patterns` (lines 66-75 of the
source): read `name` and `status` with defaults, and when the lowered name
contains "tool", record the name and classify the span as an error iff
`status.get('code') == 2`.  A non-string name raises `AttributeError` at
`name.lower()`; a non-dict `status` raises at `status.get('code')`. -/
def processSpan (c : Counts) (span : Json) : Except String Counts := do
  let name ← span.getD "name" (.str "")
  let status ← span.getD "status" (.obj [])
  match name with
  | .str s =>
    if nameHasTool s then do
      let tools := insertName c.uniqueTools s
      let code ← status.getD "code" .null
      if pyEq code (.num 2) then
        pure ⟨c.toolErrors + 1, c.toolSuccesses, tools⟩
      else
        pure ⟨c.toolErrors, c.toolSuccesses + 1, tools⟩
    else
      pure c
  | _ => .error "AttributeError"

/-- One `for` level of the nested descent: `for x in node.get(childKey, []):`
followed by the loop body `step` threading the counts. -/
def processGroup (childKey : String) (step : Counts → Json → Except String Counts)
    (c : Counts) (node : Json) : Except String Counts := do
  let v ← node.getD childKey (.arr [])
  let xs ← pyIter v
  xs.foldlM step c

/-- Body of the innermost metrics loop (lines 82-85):
the call `metric.get('name', '').lower()` is evaluated (raising on a non-string name);
the `'token' in ...` branch is `pass`, so the counts are unchanged. -/
def processMetric (c : Counts) (metric : Json) : Except String Counts := do
  let mname ← metric.getD "name" (.str "")
  match mname with
  | .str _ => pure c
  | _ => .error "AttributeError"

/-- One iteration of the outer loop of `detect_patterns` (lines 60-85): a raw
`entry['type']` lookup, then for `traces` records a descent through
`data.resourceSpans[].scopeSpans[].spans[]` classifying tool spans, and for
`metrics` records a descent through
`data.resourceMetrics[].scopeMetrics[].metrics[]` whose only observable
effect is the `metric.get('name', '').lower()` call. -/
def processEntry (c : Counts) (entry : Json) : Except String Counts := do
  let ty ← entry.item "type"
  if pyEq ty (.str "traces") then do
    let data ← entry.getD "data" (.obj [])
    processGroup "resourceSpans"
      (processGroup "scopeSpans" (processGroup "spans" processSpan)) c data
  else if pyEq ty (.str "metrics") then do
    let data ← entry.getD "data" (.obj [])
    processGroup "resourceMetrics"
      (processGroup "scopeMetrics" (processGroup "metrics" processMetric)) c data
  else
    pure c

/-- The metric-extraction pass of `detect_patterns`: fold the loop body over
the whole record list starting from zero counts. -/
def accumulate (telemetry : List Json) : Except String Counts :=
  telemetry.foldlM processEntry ⟨0, 0, []⟩

/-- The six pattern flags, in the declaration order of the `patterns` dict. -/
structure PatternFlags where
  error_thrashing : Bool
  flow_state : Bool
  stuck : Bool
  context_pressure : Bool
  exploring : Bool
  debugging : Bool
deriving DecidableEq

/-- The threshold rules of `detect_patterns` (lines 87-108) applied to the
accumulated counts and the total record count.  The rate comparisons
`error_rate > 0.4` and `error_rate < 0.1` are encoded exactly by cross
multiplication against `max (errors + successes) 1`. -/
def flagsOfCounts (c : Counts) (total : Nat) : PatternFlags :=
  let m := Nat.max (c.toolErrors + c.toolSuccesses) 1
  { error_thrashing := decide (2 * m < 5 * c.toolErrors ∧ 3 ≤ c.toolErrors)
    flow_state := decide (5 ≤ c.toolSuccesses ∧ 3 ≤ c.uniqueTools.length ∧
      10 * c.toolErrors < m)
    stuck := decide (total < 5 ∨ (c.uniqueTools.length = 1 ∧ 3 < total))
    context_pressure := false
    exploring := decide (5 ≤ c.uniqueTools.length)
    debugging := decide (2 ≤ c.toolErrors ∧ 2 ≤ c.toolSuccesses) }

/-- Model of `detect_patterns`: accumulate counts over every record, then evaluate the
threshold rules; `total_events = len(telemetry)`. -/
def detect_patterns (telemetry : List Json) : Except String PatternFlags :=
  (accumulate telemetry).map (fun c => flagsOfCounts c telemetry.length)

/-- Model of `generate_coaching` (lines 112-135): the first-match priority chain. -/
def generate_coaching (patterns : PatternFlags) : String :=
  if patterns.error_thrashing then "💭 Multiple errors detected. Try: vibecheck?"
  else if patterns.stuck then "🤔 Seems quiet. Need help exploring options?"
  else if patterns.flow_state then "🚀 Great momentum! Keep going!"
  else if patterns.debugging then "🔍 Debugging mode. Remember: test as you go"
  else if patterns.exploring then "🗺️ Exploring well! Focus emerging?"
  else if patterns.context_pressure then "📚 High token usage. Consider summarizing"
  else "✨ Ready to assist"

/-- The `patterns` entry of the persisted status: the six flags in the
declaration order of the `patterns` dict of `detect_patterns`. -/
def patternsJson (p : PatternFlags) : Json :=
  .obj [("error_thrashing", .bool p.error_thrashing),
        ("flow_state", .bool p.flow_state),
        ("stuck", .bool p.stuck),
        ("context_pressure", .bool p.context_pressure),
        ("exploring", .bool p.exploring),
        ("debugging", .bool p.debugging)]

/-- The status object assembled by `update_statusline` (lines 149-154): run
the detector on the loaded telemetry and build the `status` dict in its
literal key order.  `nowIso` stands for `datetime.now().isoformat()`; a
detector exception propagates (uncaught in `update_statusline`). -/
def update_statusline (nowIso : String) (telemetry : List Json) :
    Except String Json :=
  (detect_patterns telemetry).map (fun patterns =>
    .obj [("timestamp", .str nowIso),
          ("message", .str (generate_coaching patterns)),
          ("patterns", patternsJson patterns),
          ("telemetry_count", .num telemetry.length)])

/-- Writing the status file with `open(self.status_file, 'w')` +
`json.dump`: the previous contents (or the file's absence) are irrelevant,
the file afterwards holds exactly the new object. -/
def writeStatusFile (oldContents : Option Json) (status : Json) : Option Json :=
  let _ := oldContents
  some status

/-- The key list of a JSON object (empty for non-objects). -/
def objKeys : Json → List String
  | .obj fs => fs.map (fun p => p.1)
  | _ => []

/-- The try-block of the loader loop (lines 33-39) for one line:
`json.loads(line)` (modelled by the supplied `loads` partial parser), then
`entry['timestamp']` (KeyError/TypeError caught), then
`datetime.fromisoformat` on the value (modelled by `parseTs`; a non-string
raises TypeError, caught), then the strict `timestamp > cutoff` test.
`some entry` exactly when the line survives and is appended. -/
def keepLine (loads : String → Option Json) (parseTs : String → Option Int)
    (cutoff : Int) (line : String) : Option Json :=
  match loads line with
  | none => none
  | some entry =>
    match entry.item "timestamp" with
    | .error _ => none
    | .ok (.str s) =>
      match parseTs s with
      | none => none
      | some t => if cutoff < t then some entry else none
    | .ok _ => none

/-- Model of `load_recent_telemetry` (lines 23-41): an empty result when the log file
is missing, otherwise the loop `recent.append(entry)` over the file's lines
with the per-line try-block. -/
def load_recent_telemetry (loads : String → Option Json)
    (parseTs : String → Option Int) (cutoff : Int)
    (file : Option (List String)) : List Json :=
  match file with
  | none => []
  | some lines =>
    lines.foldl (fun recent line =>
      match keepLine loads parseTs cutoff line with
      | some entry => recent ++ [entry]
      | none => recent) []

/-- Well-formed span: a dict whose `name`, when present, is a string, and
whose `status`, when the name marks a tool span and `status` is present, is
a dict.  Exactly the shapes on which the inner loop body cannot raise. -/
def spanWF (span : Json) : Bool :=
  match span with
  | .obj fs =>
    match lookupField fs "name" with
    | none => true
    | some (.str s) =>
      if nameHasTool s then
        match (lookupField fs "status").getD (.obj []) with
        | .obj _ => true
        | _ => false
      else true
    | some _ => false
  | _ => false

/-- Well-formed intermediate group node: a dict whose child field, when
present, is a list of well-formed children. -/
def groupWF (childKey : String) (childOK : Json → Bool) (g : Json) : Bool :=
  match g with
  | .obj fs =>
    match (lookupField fs childKey).getD (.arr []) with
    | .arr xs => xs.all childOK
    | _ => false
  | _ => false

/-- Well-formed metric entry: a dict whose `name`, when present, is a string
(`metric.get('name', '').lower()` is evaluated unconditionally). -/
def metricWF (m : Json) : Bool :=
  match m with
  | .obj fs =>
    match lookupField fs "name" with
    | none => true
    | some (.str _) => true
    | some _ => false
  | _ => false

/-- Well-formed record: a dict that has a `type` key and whose nested
`data` tree, for `traces` and `metrics` records, has the expected
dict/list/string shapes wherever a field is present (every field may be
absent).  Exactly the records on which `detect_patterns` cannot raise. -/
def entryWF (e : Json) : Bool :=
  match e with
  | .obj fs =>
    match lookupField fs "type" with
    | none => false
    | some ty =>
      if pyEq ty (.str "traces") then
        groupWF "resourceSpans"
          (groupWF "scopeSpans" (groupWF "spans" spanWF))
          ((lookupField fs "data").getD (.obj []))
      else if pyEq ty (.str "metrics") then
        groupWF "resourceMetrics"
          (groupWF "scopeMetrics" (groupWF "metrics" metricWF))
          ((lookupField fs "data").getD (.obj []))
      else true
  | _ => false

/-- The `type` field of a record, when the record is a dict that has one. -/
def entryType (e : Json) : Option Json :=
  match e with
  | .obj fs => lookupField fs "type"
  | _ => none

/-- The status-code value the classifier compares against 2: `status` read
with default `{}`, then `code` read with default `None`.  Only meaningful on
spans the classifier processes without raising. -/
def spanStatusCode (span : Json) : Json :=
  match span with
  | .obj fs =>
    match (lookupField fs "status").getD (.obj []) with
    | .obj sfs => (lookupField sfs "code").getD .null
    | _ => .null
  | _ => .null

/-- Is the span a tool span, i.e. does its `name` (default `''`) contain
`tool` after lowering?  Only meaningful on spans processed without raising. -/
def spanIsTool (span : Json) : Bool :=
  match span with
  | .obj fs =>
    match lookupField fs "name" with
    | some (.str s) => nameHasTool s
    | _ => false
  | _ => false

/-- Is the span classified as an error: its status code equals 2. -/
def spanCodeIsError (span : Json) : Bool :=
  pyEq (spanStatusCode span) (.num 2)

/-- A span with a name and, optionally, a `status.code` value. -/
def mkSpan (name : String) (code : Option Int) : Json :=
  match code with
  | some n => .obj [("name", .str name), ("status", .obj [("code", .num n)])]
  | none => .obj [("name", .str name)]

/-- A `traces` record holding a single span. -/
def mkTraceEntry (span : Json) : Json :=
  .obj [("type", .str "traces"),
        ("data", .obj [("resourceSpans", .arr [
          .obj [("scopeSpans", .arr [
            .obj [("spans", .arr [span])]])]])])]

/-- Three records, each one failed `tool_run` span: 3 errors, 0 successes. -/
def wErr3 : List Json :=
  [mkTraceEntry (mkSpan "tool_run" (some 2)),
   mkTraceEntry (mkSpan "tool_run" (some 2)),
   mkTraceEntry (mkSpan "tool_run" (some 2))]

/-- Six `traces` records: four distinct successful tool spans and two failed
spans sharing a name, so successes = 4, errors = 2, distinct tools = 5. -/
def wSix : List Json :=
  [mkTraceEntry (mkSpan "tool_read" none),
   mkTraceEntry (mkSpan "tool_edit" none),
   mkTraceEntry (mkSpan "tool_bash" none),
   mkTraceEntry (mkSpan "tool_grep" none),
   mkTraceEntry (mkSpan "tool_run" (some 2)),
   mkTraceEntry (mkSpan "tool_run" (some 2))]

/-- Records of assorted well-formed shapes: a `traces` record with no data,
a `metrics` record, a record of another type, and a full trace record. -/
def wMixed : List Json :=
  [Json.obj [("type", Json.str "traces")],
   Json.obj [("type", Json.str "traces"), ("data", Json.obj [])],
   Json.obj [("type", Json.str "metrics"),
     ("data", Json.obj [("resourceMetrics", Json.arr [
       Json.obj [("scopeMetrics", Json.arr [
         Json.obj [("metrics", Json.arr [
           Json.obj [("name", Json.str "claude.tokens")]])]])]])])],
   Json.obj [("type", Json.str "logs")],
   Json.obj [("type", Json.num 7)],
   mkTraceEntry (mkSpan "tool_read" none)]

/-- The status object produced for an empty telemetry window. -/
def wStatusEmpty : Json :=
  Json.obj [("timestamp", Json.str "2026-01-01T00:00:00"),
            ("message", Json.str "🤔 Seems quiet. Need help exploring options?"),
            ("patterns", patternsJson ⟨false, false, true, false, false, false⟩),
            ("telemetry_count", Json.num 0)]

/-- A tiny concrete parser pair for the loader witness: line `"good"` holds a
record stamped 9, line `"old"` one stamped 1, everything else is malformed. -/
def wLoads : String → Option Json := fun s =>
  if s == "good" then some (Json.obj [("timestamp", Json.str "9")])
  else if s == "old" then some (Json.obj [("timestamp", Json.str "1")])
  else none

/-- Timestamp parser for the loader witness. -/
def wParseTs : String → Option Int := fun s =>
  if s == "9" then some 9 else if s == "1" then some 1 else none

/-- A failed tool span for the C10 witness. -/
def wSpanErr : Json :=
  Json.obj [("name", Json.str "tool_fail"), ("status", Json.obj [("code", Json.num 2)])]

/-! ## Helper lemmas -/

theorem exceptBind_ok {α β : Type} (a : α) (f : α → Except String β) :
    (Except.ok a >>= f) = f a := rfl

theorem detect_patterns_ok_elim {telemetry : List Json} {flags : PatternFlags}
    (h : detect_patterns telemetry = .ok flags) :
    ∃ c, accumulate telemetry = .ok c ∧ flags = flagsOfCounts c telemetry.length := by
  unfold detect_patterns at h
  cases hacc : accumulate telemetry with
  | error e => rw [hacc] at h; cases h
  | ok c =>
    rw [hacc] at h
    simp only [Except.map] at h
    cases h
    exact ⟨c, rfl, rfl⟩

/-! ## C2: coach priority chain -/

/-- C2: `generate_coaching` is total and selects exactly one message by
first-match evaluation in the order error_thrashing, stuck, flow_state,
debugging, exploring, context_pressure, with a default "ready" message; in
particular error_thrashing outranks every later flag. -/
theorem generate_coaching_priority (f : PatternFlags) :
    (f.error_thrashing = true →
       generate_coaching f = "💭 Multiple errors detected. Try: vibecheck?") ∧
    (f.error_thrashing = false → f.stuck = true →
       generate_coaching f = "🤔 Seems quiet. Need help exploring options?") ∧
    (f.error_thrashing = false → f.stuck = false → f.flow_state = true →
       generate_coaching f = "🚀 Great momentum! Keep going!") ∧
    (f.error_thrashing = false → f.stuck = false → f.flow_state = false →
       f.debugging = true →
       generate_coaching f = "🔍 Debugging mode. Remember: test as you go") ∧
    (f.error_thrashing = false → f.stuck = false → f.flow_state = false →
       f.debugging = false → f.exploring = true →
       generate_coaching f = "🗺️ Exploring well! Focus emerging?") ∧
    (f.error_thrashing = false → f.stuck = false → f.flow_state = false →
       f.debugging = false → f.exploring = false → f.context_pressure = true →
       generate_coaching f = "📚 High token usage. Consider summarizing") ∧
    (f.error_thrashing = false → f.stuck = false → f.flow_state = false →
       f.debugging = false → f.exploring = false → f.context_pressure = false →
       generate_coaching f = "✨ Ready to assist") := by
  rcases f with ⟨a, b, c, d, e, g⟩
  cases a <;> cases b <;> cases c <;> cases d <;> cases e <;> cases g <;>
    simp [generate_coaching]

/-- Witness for C2: with both error_thrashing and flow_state raised, the
emitted message is the error-thrashing one. -/
theorem generate_coaching_priority_witness :
    generate_coaching ⟨true, true, false, false, false, false⟩ =
      "💭 Multiple errors detected. Try: vibecheck?" :=
  (generate_coaching_priority ⟨true, true, false, false, false, false⟩).1 rfl

/-! ## C7: context_pressure is dead -/

/-- C7: on every successfully analyzed input the context_pressure flag is
false, and consequently the pipeline can never emit the context-pressure
coaching message. -/
theorem context_pressure_never (telemetry : List Json) (flags : PatternFlags)
    (h : detect_patterns telemetry = .ok flags) :
    flags.context_pressure = false ∧
      generate_coaching flags ≠ "📚 High token usage. Consider summarizing" := by
  obtain ⟨c, hacc, hflags⟩ := detect_patterns_ok_elim h
  have hcp : flags.context_pressure = false := by
    rw [hflags]; rfl
  refine ⟨hcp, ?_⟩
  rcases flags with ⟨a, b, c2, d, e2, g⟩
  simp only at hcp
  subst hcp
  cases a <;> cases b <;> cases c2 <;> cases e2 <;> cases g <;>
    simp [generate_coaching]

/-- Witness for C7 at the empty telemetry list. -/
theorem context_pressure_never_witness :
    (⟨false, false, true, false, false, false⟩ : PatternFlags).context_pressure = false ∧
      generate_coaching ⟨false, false, true, false, false, false⟩ ≠
        "📚 High token usage. Consider summarizing" :=
  context_pressure_never [] ⟨false, false, true, false, false, false⟩ rfl

/-! ## C1: error_thrashing characterization -/

/-- C1: `detect_patterns` raises error_thrashing iff the accumulated error
count is at least 3 and the error rate `errors / max(errors + successes, 1)`
is strictly greater than 0.4 (encoded exactly as `5 * errors` versus
`2 * max(errors + successes, 1)`). -/
theorem error_thrashing_iff (telemetry : List Json) (c : Counts)
    (flags : PatternFlags) (hacc : accumulate telemetry = .ok c)
    (h : detect_patterns telemetry = .ok flags) :
    flags.error_thrashing = true ↔
      3 ≤ c.toolErrors ∧
        2 * Nat.max (c.toolErrors + c.toolSuccesses) 1 < 5 * c.toolErrors := by
  obtain ⟨c', hacc', hflags⟩ := detect_patterns_ok_elim h
  rw [hacc] at hacc'
  cases hacc'
  subst hflags
  simp only [flagsOfCounts, decide_eq_true_eq]
  tauto

/-- Witness for C1: three errored tool spans give rate 1 and 3 errors. -/
theorem error_thrashing_iff_witness :
    (flagsOfCounts ⟨3, 0, ["tool_run"]⟩ wErr3.length).error_thrashing = true ↔
      3 ≤ (3 : Nat) ∧ 2 * Nat.max (3 + 0) 1 < 5 * 3 :=
  error_thrashing_iff wErr3 ⟨3, 0, ["tool_run"]⟩
    (flagsOfCounts ⟨3, 0, ["tool_run"]⟩ wErr3.length) rfl rfl

/-! ## C3: stuck characterization and the empty run -/

/-- C3: `detect_patterns` raises stuck iff fewer than 5 records were loaded,
or exactly one distinct tool name was seen over more than 3 records; on the
empty input stuck is the only raised flag and the coach emits the "quiet"
message. -/
theorem stuck_iff (telemetry : List Json) (c : Counts) (flags : PatternFlags)
    (hacc : accumulate telemetry = .ok c)
    (h : detect_patterns telemetry = .ok flags) :
    (flags.stuck = true ↔
      telemetry.length < 5 ∨
        (c.uniqueTools.length = 1 ∧ 3 < telemetry.length)) ∧
    detect_patterns [] = .ok ⟨false, false, true, false, false, false⟩ ∧
    generate_coaching ⟨false, false, true, false, false, false⟩ =
      "🤔 Seems quiet. Need help exploring options?" := by
  refine ⟨?_, rfl, rfl⟩
  obtain ⟨c', hacc', hflags⟩ := detect_patterns_ok_elim h
  rw [hacc] at hacc'
  cases hacc'
  subst hflags
  simp only [flagsOfCounts, decide_eq_true_eq]

/-- Witness for C3 at the empty telemetry list. -/
theorem stuck_iff_witness :
    ((flagsOfCounts ⟨0, 0, []⟩ (List.length ([] : List Json))).stuck = true ↔
      List.length ([] : List Json) < 5 ∨
        ((0 : Nat) = 1 ∧ 3 < List.length ([] : List Json))) ∧
    detect_patterns [] = .ok ⟨false, false, true, false, false, false⟩ ∧
    generate_coaching ⟨false, false, true, false, false, false⟩ =
      "🤔 Seems quiet. Need help exploring options?" :=
  stuck_iff [] ⟨0, 0, []⟩ (flagsOfCounts ⟨0, 0, []⟩ 0) rfl rfl

/-! ## C9: error_thrashing and flow_state are mutually exclusive -/

/-- C9: no input can raise error_thrashing and flow_state together, since the
former needs an error rate above 0.4 and the latter one below 0.1 over the
same counts. -/
theorem thrash_flow_exclusive (telemetry : List Json) (flags : PatternFlags)
    (h : detect_patterns telemetry = .ok flags) :
    ¬(flags.error_thrashing = true ∧ flags.flow_state = true) := by
  obtain ⟨c, hacc, hflags⟩ := detect_patterns_ok_elim h
  subst hflags
  simp only [flagsOfCounts, decide_eq_true_eq]
  omega

/-- Witness for C9 at the empty telemetry list. -/
theorem thrash_flow_exclusive_witness :
    ¬((⟨false, false, true, false, false, false⟩ : PatternFlags).error_thrashing = true ∧
      (⟨false, false, true, false, false, false⟩ : PatternFlags).flow_state = true) :=
  thrash_flow_exclusive [] ⟨false, false, true, false, false, false⟩ rfl

/-! ## C8: end-to-end debugging scenario -/

/-- C8: any 6-record `traces` log whose tool spans aggregate to 4 successes,
2 errors and 5 distinct tool names yields exactly the debugging and exploring
flags, and the coach emits the debugging message. -/
theorem end_to_end_debugging (telemetry : List Json) (c : Counts)
    (hlen : telemetry.length = 6)
    (_htype : ∀ e ∈ telemetry, entryType e = some (Json.str "traces"))
    (hacc : accumulate telemetry = .ok c)
    (herr : c.toolErrors = 2) (hsucc : c.toolSuccesses = 4)
    (hu : c.uniqueTools.length = 5) :
    detect_patterns telemetry = .ok ⟨false, false, false, false, true, true⟩ ∧
    generate_coaching ⟨false, false, false, false, true, true⟩ =
      "🔍 Debugging mode. Remember: test as you go" := by
  refine ⟨?_, rfl⟩
  rw [detect_patterns, hacc, hlen]
  simp only [Except.map]
  rcases c with ⟨e, s, u⟩
  simp only at herr hsucc hu
  subst herr
  subst hsucc
  simp only [flagsOfCounts, PatternFlags.mk.injEq, hu]
  norm_num

/-- Witness for C8: the six-record log `wSix`. -/
theorem end_to_end_debugging_witness :
    detect_patterns wSix = .ok ⟨false, false, false, false, true, true⟩ ∧
    generate_coaching ⟨false, false, false, false, true, true⟩ =
      "🔍 Debugging mode. Remember: test as you go" :=
  end_to_end_debugging wSix
    ⟨2, 4, ["tool_read", "tool_edit", "tool_bash", "tool_grep", "tool_run"]⟩
    rfl
    (by intro e he
        simp only [wSix, mkTraceEntry, mkSpan, List.mem_cons, List.not_mem_nil,
          or_false] at he
        rcases he with rfl | rfl | rfl | rfl | rfl | rfl <;> rfl)
    rfl rfl rfl rfl

/-! ## C5: the persisted status object -/

/-- Counterexample for C5: the persisted snapshot's count field is named
`telemetry_count`, not `telemetryCount` as the claim states, so the claimed
field set is wrong. -/
theorem update_statusline_key_counterexample :
    update_statusline "2026-01-01T00:00:00" [] = .ok wStatusEmpty ∧
    objKeys wStatusEmpty = ["timestamp", "message", "patterns", "telemetry_count"] ∧
    (objKeys wStatusEmpty).contains "telemetryCount" = false :=
  ⟨rfl, rfl, rfl⟩

/-- C5 (amended): on every run that completes, the persisted snapshot is a
single object with exactly the fields `timestamp` (the current-time string),
`message` (the coaching message), `patterns` (the six pattern names mapped to
booleans) and `telemetry_count` (the number of loaded records), and writing
it fully replaces any previous file contents. -/
theorem update_statusline_spec (nowIso : String) (telemetry : List Json)
    (flags : PatternFlags) (h : detect_patterns telemetry = .ok flags) :
    update_statusline nowIso telemetry =
      .ok (Json.obj [("timestamp", Json.str nowIso),
                     ("message", Json.str (generate_coaching flags)),
                     ("patterns", patternsJson flags),
                     ("telemetry_count", Json.num telemetry.length)]) ∧
    ∀ oldContents status, writeStatusFile oldContents status = some status := by
  refine ⟨?_, fun _ _ => rfl⟩
  rw [update_statusline, h]
  rfl

/-- Witness for C5 at an empty telemetry window. -/
theorem update_statusline_spec_witness :
    update_statusline "2026-01-01T00:00:00" [] =
      .ok (Json.obj [("timestamp", Json.str "2026-01-01T00:00:00"),
                     ("message", Json.str
                       (generate_coaching ⟨false, false, true, false, false, false⟩)),
                     ("patterns", patternsJson ⟨false, false, true, false, false, false⟩),
                     ("telemetry_count", Json.num (List.length ([] : List Json)))]) ∧
    ∀ oldContents status, writeStatusFile oldContents status = some status :=
  update_statusline_spec "2026-01-01T00:00:00" []
    ⟨false, false, true, false, false, false⟩ rfl

/-! ## C6: the loader -/

theorem foldl_append_eq_filterMap (f : String → Option Json) (lines : List String) :
    ∀ acc, lines.foldl (fun recent line =>
        match f line with
        | some entry => recent ++ [entry]
        | none => recent) acc = acc ++ lines.filterMap f := by
  induction lines with
  | nil => intro acc; simp
  | cons l ls ih =>
    intro acc
    cases hf : f l <;> simp [List.foldl_cons, hf, List.filterMap_cons, ih]

/-- C6: the loader returns the empty sequence when the log file is missing,
and otherwise exactly the records, in physical line order, of the lines that
parse with a string timestamp strictly after the cutoff (`keepLine`); an
unparseable line is skipped without affecting the lines around it. -/
theorem load_recent_telemetry_spec (loads : String → Option Json)
    (parseTs : String → Option Int) (cutoff : Int) (lines : List String)
    (pre suf : List String) (bad : String)
    (hbad : keepLine loads parseTs cutoff bad = none) :
    load_recent_telemetry loads parseTs cutoff none = [] ∧
    load_recent_telemetry loads parseTs cutoff (some lines) =
      lines.filterMap (keepLine loads parseTs cutoff) ∧
    load_recent_telemetry loads parseTs cutoff (some (pre ++ bad :: suf)) =
      load_recent_telemetry loads parseTs cutoff (some (pre ++ suf)) := by
  have hmain : ∀ ls : List String,
      load_recent_telemetry loads parseTs cutoff (some ls) =
        ls.filterMap (keepLine loads parseTs cutoff) := by
    intro ls
    rw [load_recent_telemetry]
    simpa using foldl_append_eq_filterMap (keepLine loads parseTs cutoff) ls []
  refine ⟨rfl, hmain lines, ?_⟩
  rw [hmain, hmain]
  simp [List.filterMap_append, List.filterMap_cons, hbad]

/-- Witness for C6 with cutoff 5: the malformed line `"junk"` between the
fresh line `"good"` and the stale line `"old"` is skipped harmlessly. -/
theorem load_recent_telemetry_spec_witness :
    load_recent_telemetry wLoads wParseTs 5 none = [] ∧
    load_recent_telemetry wLoads wParseTs 5 (some ["good", "junk", "old"]) =
      ["good", "junk", "old"].filterMap (keepLine wLoads wParseTs 5) ∧
    load_recent_telemetry wLoads wParseTs 5 (some (["good"] ++ "junk" :: ["old"])) =
      load_recent_telemetry wLoads wParseTs 5 (some (["good"] ++ ["old"])) :=
  load_recent_telemetry_spec wLoads wParseTs 5 ["good", "junk", "old"]
    ["good"] ["old"] "junk" rfl

/-! ## C4: exception behavior of detect_patterns -/

theorem exceptBind_error {α β : Type} (e : String) (f : α → Except String β) :
    ((Except.error e : Except String α) >>= f) = .error e := rfl

theorem pure_eq_ok {α : Type} (a : α) : (pure a : Except String α) = .ok a := rfl

theorem foldlM_ok_of_all {α : Type} (step : Counts → α → Except String Counts)
    (p : α → Bool) (hstep : ∀ x, p x = true → ∀ b, ∃ b2, step b x = .ok b2) :
    ∀ xs : List α, xs.all p = true → ∀ b, ∃ b2, xs.foldlM step b = .ok b2 := by
  intro xs
  induction xs with
  | nil => exact fun _ b => ⟨b, rfl⟩
  | cons x rest ih =>
    intro hall b
    rw [List.all_cons, Bool.and_eq_true] at hall
    obtain ⟨b1, hb1⟩ := hstep x hall.1 b
    obtain ⟨b2, hb2⟩ := ih hall.2 b1
    refine ⟨b2, ?_⟩
    show (step b x >>= fun b' => rest.foldlM step b') = .ok b2
    rw [hb1, exceptBind_ok]
    exact hb2

theorem spanWF_ok (span : Json) (hwf : spanWF span = true) (c : Counts) :
    ∃ c2, processSpan c span = .ok c2 := by
  cases span with
  | obj fs =>
    simp only [processSpan, Json.getD, exceptBind_ok]
    cases hname : lookupField fs "name" with
    | none =>
      refine ⟨c, ?_⟩
      simp [hname]
      rfl
    | some v =>
      cases v with
      | str s =>
        by_cases htool : nameHasTool s
        · cases hstat : (lookupField fs "status").getD (.obj []) with
          | obj sfs =>
            by_cases herr2 : pyEq ((lookupField sfs "code").getD .null) (.num 2)
            · exact ⟨⟨c.toolErrors + 1, c.toolSuccesses, insertName c.uniqueTools s⟩,
                by simp [hname, hstat, htool, herr2, exceptBind_ok]; rfl⟩
            · exact ⟨⟨c.toolErrors, c.toolSuccesses + 1, insertName c.uniqueTools s⟩,
                by simp [hname, hstat, htool, herr2, exceptBind_ok]; rfl⟩
          | null => simp [spanWF, hname, htool, hstat] at hwf
          | bool b => simp [spanWF, hname, htool, hstat] at hwf
          | num n => simp [spanWF, hname, htool, hstat] at hwf
          | str s2 => simp [spanWF, hname, htool, hstat] at hwf
          | arr xs => simp [spanWF, hname, htool, hstat] at hwf
        · exact ⟨c, by simp [hname, htool]; rfl⟩
      | null => simp [spanWF, hname] at hwf
      | bool b => simp [spanWF, hname] at hwf
      | num n => simp [spanWF, hname] at hwf
      | arr xs => simp [spanWF, hname] at hwf
      | obj fs2 => simp [spanWF, hname] at hwf
  | null => simp [spanWF] at hwf
  | bool b => simp [spanWF] at hwf
  | num n => simp [spanWF] at hwf
  | str s => simp [spanWF] at hwf
  | arr xs => simp [spanWF] at hwf

theorem metricWF_ok (m : Json) (hwf : metricWF m = true) (c : Counts) :
    ∃ c2, processMetric c m = .ok c2 := by
  cases m with
  | obj fs =>
    simp only [processMetric, Json.getD, exceptBind_ok]
    cases hname : lookupField fs "name" with
    | none => exact ⟨c, by simp [hname, pure_eq_ok]⟩
    | some v =>
      cases v with
      | str s => exact ⟨c, by simp [hname, pure_eq_ok]⟩
      | null => simp [metricWF, hname] at hwf
      | bool b => simp [metricWF, hname] at hwf
      | num n => simp [metricWF, hname] at hwf
      | arr xs => simp [metricWF, hname] at hwf
      | obj fs2 => simp [metricWF, hname] at hwf
  | null => simp [metricWF] at hwf
  | bool b => simp [metricWF] at hwf
  | num n => simp [metricWF] at hwf
  | str s => simp [metricWF] at hwf
  | arr xs => simp [metricWF] at hwf

theorem processGroup_ok (childKey : String) (childOK : Json → Bool)
    (step : Counts → Json → Except String Counts)
    (hstep : ∀ x, childOK x = true → ∀ b, ∃ b2, step b x = .ok b2)
    (g : Json) (hwf : groupWF childKey childOK g = true) (c : Counts) :
    ∃ c2, processGroup childKey step c g = .ok c2 := by
  cases g with
  | obj fs =>
    simp only [processGroup, Json.getD, exceptBind_ok]
    cases hv : (lookupField fs childKey).getD (.arr []) with
    | arr xs =>
      have hall : xs.all childOK = true := by
        have := hwf
        rw [groupWF, hv] at this
        exact this
      obtain ⟨c2, hc2⟩ := foldlM_ok_of_all step childOK hstep xs hall c
      exact ⟨c2, by simp [hv, pyIter, exceptBind_ok, hc2]⟩
    | null => rw [groupWF, hv] at hwf; cases hwf
    | bool b => rw [groupWF, hv] at hwf; cases hwf
    | num n => rw [groupWF, hv] at hwf; cases hwf
    | str s => rw [groupWF, hv] at hwf; cases hwf
    | obj fs2 => rw [groupWF, hv] at hwf; cases hwf
  | null => simp [groupWF] at hwf
  | bool b => simp [groupWF] at hwf
  | num n => simp [groupWF] at hwf
  | str s => simp [groupWF] at hwf
  | arr xs => simp [groupWF] at hwf

theorem entryWF_ok (e : Json) (hwf : entryWF e = true) (c : Counts) :
    ∃ c2, processEntry c e = .ok c2 := by
  cases e with
  | obj fs =>
    simp only [processEntry, Json.item]
    cases hty : lookupField fs "type" with
    | none => simp [entryWF, hty] at hwf
    | some ty =>
      simp only [exceptBind_ok]
      by_cases htr : pyEq ty (.str "traces")
      · have hdata : groupWF "resourceSpans"
            (groupWF "scopeSpans" (groupWF "spans" spanWF))
            ((lookupField fs "data").getD (.obj [])) = true := by
          simp only [entryWF, hty] at hwf
          rw [if_pos htr] at hwf
          exact hwf
        obtain ⟨c2, hc2⟩ := processGroup_ok "resourceSpans"
          (groupWF "scopeSpans" (groupWF "spans" spanWF))
          (processGroup "scopeSpans" (processGroup "spans" processSpan))
          (fun rs hrs b => processGroup_ok "scopeSpans" (groupWF "spans" spanWF)
            (processGroup "spans" processSpan)
            (fun ss hss b2 => processGroup_ok "spans" spanWF processSpan
              spanWF_ok ss hss b2)
            rs hrs b)
          ((lookupField fs "data").getD (.obj [])) hdata c
        exact ⟨c2, by simp [htr, Json.getD, exceptBind_ok, hc2]⟩
      · by_cases hm : pyEq ty (.str "metrics")
        · have hdata : groupWF "resourceMetrics"
              (groupWF "scopeMetrics" (groupWF "metrics" metricWF))
              ((lookupField fs "data").getD (.obj [])) = true := by
            simp only [entryWF, hty] at hwf
            rw [if_neg htr, if_pos hm] at hwf
            exact hwf
          obtain ⟨c2, hc2⟩ := processGroup_ok "resourceMetrics"
            (groupWF "scopeMetrics" (groupWF "metrics" metricWF))
            (processGroup "scopeMetrics" (processGroup "metrics" processMetric))
            (fun rm hrm b => processGroup_ok "scopeMetrics" (groupWF "metrics" metricWF)
              (processGroup "metrics" processMetric)
              (fun sm hsm b2 => processGroup_ok "metrics" metricWF processMetric
                metricWF_ok sm hsm b2)
              rm hrm b)
            ((lookupField fs "data").getD (.obj [])) hdata c
          exact ⟨c2, by simp [htr, hm, Json.getD, exceptBind_ok, hc2]⟩
        · exact ⟨c, by simp [htr, hm, pure_eq_ok]⟩
  | null => simp [entryWF] at hwf
  | bool b => simp [entryWF] at hwf
  | num n => simp [entryWF] at hwf
  | str s => simp [entryWF] at hwf
  | arr xs => simp [entryWF] at hwf

/-- Counterexample for C4: a record shaped exactly like what the loader
admits (a dict with a parseable timestamp) but with no `type` field makes
`detect_patterns` raise `KeyError` at `entry['type']`. -/
theorem detect_patterns_missing_type_raises :
    detect_patterns [Json.obj [("timestamp", Json.str "2026-01-01T00:00:00")]] =
      .error "KeyError" := rfl

/-- C4 (amended): `detect_patterns` completes without raising on every input
sequence whose records are dicts that carry a `type` field and whose nested
`data` trees have the expected shapes wherever a field is present; any
missing nested field contributes zero to the accumulated counts (a `traces`
record with no `data` leaves the counts untouched). -/
theorem detect_patterns_total (telemetry : List Json)
    (h : ∀ e ∈ telemetry, entryWF e = true) :
    (detect_patterns telemetry).isOk = true ∧
    ∀ c, processEntry c (Json.obj [("type", Json.str "traces")]) = .ok c := by
  refine ⟨?_, fun c => rfl⟩
  have hall : telemetry.all entryWF = true := by
    rw [List.all_eq_true]
    exact h
  obtain ⟨cfin, hacc⟩ := foldlM_ok_of_all processEntry entryWF
    (fun x hx b => entryWF_ok x hx b) telemetry hall ⟨0, 0, []⟩
  have haccum : accumulate telemetry = .ok cfin := hacc
  rw [detect_patterns, haccum]
  rfl

/-- Witness for C4 on records of assorted well-formed shapes. -/
theorem detect_patterns_total_witness :
    (detect_patterns wMixed).isOk = true ∧
    processEntry ⟨1, 2, ["tool_x"]⟩ (Json.obj [("type", Json.str "traces")]) =
      .ok ⟨1, 2, ["tool_x"]⟩ :=
  ⟨(detect_patterns_total wMixed (by decide)).1,
   (detect_patterns_total wMixed (by decide)).2 ⟨1, 2, ["tool_x"]⟩⟩

/-! ## C10: tool-span classification dichotomy -/

/-- C10: every span the classifier processes is either not a tool span and
leaves the counts unchanged, or is a tool span and is classified as exactly
one of error (status code equals 2) or success (any other case, including a
missing `status` or `code`), so errors plus successes grows by exactly one
per tool span. -/
theorem tool_span_classification (c : Counts) (span : Json) (c2 : Counts)
    (h : processSpan c span = .ok c2) :
    (spanIsTool span = true →
      ((spanCodeIsError span = true →
          c2.toolErrors = c.toolErrors + 1 ∧ c2.toolSuccesses = c.toolSuccesses) ∧
       (spanCodeIsError span = false →
          c2.toolSuccesses = c.toolSuccesses + 1 ∧ c2.toolErrors = c.toolErrors) ∧
       c2.toolErrors + c2.toolSuccesses = c.toolErrors + c.toolSuccesses + 1)) ∧
    (spanIsTool span = false → c2 = c) := by
  cases span with
  | obj fs =>
    simp only [processSpan, Json.getD, exceptBind_ok] at h
    cases hname : lookupField fs "name" with
    | none =>
      rw [hname] at h
      have hnt : nameHasTool "" = false := rfl
      simp only [Option.getD, hnt, Bool.false_eq_true, if_false, pure_eq_ok,
        Except.ok.injEq] at h
      subst h
      simp [spanIsTool, hname]
    | some v =>
      cases v with
      | str s =>
        rw [hname] at h
        by_cases htool : nameHasTool s
        · cases hstat : (lookupField fs "status").getD (.obj []) with
          | obj sfs =>
            rw [hstat] at h
            simp only [Option.getD_some] at h
            rw [if_pos htool] at h
            simp only [Json.getD, exceptBind_ok] at h
            by_cases hcode : pyEq ((lookupField sfs "code").getD .null) (.num 2)
            · rw [if_pos hcode] at h
              simp only [pure_eq_ok, Except.ok.injEq] at h
              subst h
              simp [spanIsTool, hname, htool, spanCodeIsError, spanStatusCode,
                hstat, hcode]
              omega
            · rw [if_neg hcode] at h
              simp only [pure_eq_ok, Except.ok.injEq] at h
              subst h
              simp [spanIsTool, hname, htool, spanCodeIsError, spanStatusCode,
                hstat, hcode]
              omega
          | null => rw [hstat] at h; simp [htool, exceptBind_error] at h
          | bool b => rw [hstat] at h; simp [htool, exceptBind_error] at h
          | num n => rw [hstat] at h; simp [htool, exceptBind_error] at h
          | str s2 => rw [hstat] at h; simp [htool, exceptBind_error] at h
          | arr xs => rw [hstat] at h; simp [htool, exceptBind_error] at h
        · simp only [Option.getD, htool, Bool.false_eq_true, if_false,
            pure_eq_ok, Except.ok.injEq] at h
          subst h
          simp [spanIsTool, hname, htool]
      | null => rw [hname] at h; simp at h
      | bool b => rw [hname] at h; simp at h
      | num n => rw [hname] at h; simp at h
      | arr xs => rw [hname] at h; simp at h
      | obj fs2 => rw [hname] at h; simp at h
  | null => simp [processSpan, Json.getD, exceptBind_error] at h
  | bool b => simp [processSpan, Json.getD, exceptBind_error] at h
  | num n => simp [processSpan, Json.getD, exceptBind_error] at h
  | str s => simp [processSpan, Json.getD, exceptBind_error] at h
  | arr xs => simp [processSpan, Json.getD, exceptBind_error] at h

/-- Witness for C10: classifying a failed tool span from zero counts. -/
theorem tool_span_classification_witness :
    (spanIsTool wSpanErr = true →
      ((spanCodeIsError wSpanErr = true →
          (⟨1, 0, ["tool_fail"]⟩ : Counts).toolErrors =
              (⟨0, 0, []⟩ : Counts).toolErrors + 1 ∧
            (⟨1, 0, ["tool_fail"]⟩ : Counts).toolSuccesses =
              (⟨0, 0, []⟩ : Counts).toolSuccesses) ∧
       (spanCodeIsError wSpanErr = false →
          (⟨1, 0, ["tool_fail"]⟩ : Counts).toolSuccesses =
              (⟨0, 0, []⟩ : Counts).toolSuccesses + 1 ∧
            (⟨1, 0, ["tool_fail"]⟩ : Counts).toolErrors =
              (⟨0, 0, []⟩ : Counts).toolErrors) ∧
       (⟨1, 0, ["tool_fail"]⟩ : Counts).toolErrors +
           (⟨1, 0, ["tool_fail"]⟩ : Counts).toolSuccesses =
         (⟨0, 0, []⟩ : Counts).toolErrors + (⟨0, 0, []⟩ : Counts).toolSuccesses + 1)) ∧
    (spanIsTool wSpanErr = false → (⟨1, 0, ["tool_fail"]⟩ : Counts) = ⟨0, 0, []⟩) :=
  tool_span_classification ⟨0, 0, []⟩ wSpanErr ⟨1, 0, ["tool_fail"]⟩ rfl
